import Mathlib

/-!
Verification of the weather-dashboard core logic.

The development shallowly embeds the two computational components of the
repository:

* the volatility scorer `calculateVolatility` / `calculateWeatherVolatility`
  from `src/components/VolatilityIndicator/index.tsx`, together with the two
  view-layer pipelines that feed it (the Dashboard fetch pipeline and the
  Analytics pipeline, both in the unnamed page source);
* the date-range picker `applyPreset` / `handleStartDateChange` /
  `handleEndDateChange` from `src/components/ui/Tooltip.tsx`
  (the `DateRangePicker` component).

JavaScript numbers are modelled as real numbers (`ℝ`); the JS `Date` object
is modelled as a local-time instant: a proleptic-Gregorian civil date plus a
millisecond-of-day offset.  The model idealises `Date` in the usual ways: a
fixed-offset timezone (no DST jumps), no two-digit-year remapping in the
`Date(year, month, day)` constructor, and an unbounded time range.
-/

namespace Weather

/-! ## Volatility scorer (`src/components/VolatilityIndicator/index.tsx`) -/

/-- `readings.reduce((sum, val) => sum + val, 0)` -/
def jsSum (l : List ℝ) : ℝ := l.foldl (fun s v => s + v) 0

/-- `calculateVolatility` (lines 84-91): population standard deviation of the
readings, or `0` when fewer than two readings are supplied. -/
noncomputable def calculateVolatility (readings : List ℝ) : ℝ :=
  if readings.length < 2 then 0
  else
    let mean := jsSum readings / readings.length
    let variance :=
      readings.foldl (fun s v => s + (v - mean) ^ 2) 0 / readings.length
    Real.sqrt variance

/-- The argument object of `calculateWeatherVolatility`: each metric is either
absent (`undefined` in JS) or an array of numeric samples. -/
structure Metrics where
  temperature : Option (List ℝ)
  humidity : Option (List ℝ)
  pressure : Option (List ℝ)
  windSpeed : Option (List ℝ)

/-- One branch of `calculateWeatherVolatility`: when the metric is present and
has more than one sample, `calculateVolatility(samples) * weight` is pushed
onto the `volatilities` array, otherwise nothing is pushed. -/
noncomputable def metricContribution (w : ℝ) : Option (List ℝ) → List ℝ
  | some l => if 1 < l.length then [calculateVolatility l * w] else []
  | none => []

/-- `calculateWeatherVolatility` (lines 94-133): weighted sum of the per-metric
volatilities, with weights temperature `0.4`, humidity `0.2`, pressure `0.2`,
wind speed `0.2`; the `volatilities` array is summed by `reduce` when
non-empty and the score is `0` otherwise. -/
noncomputable def calculateWeatherVolatility (m : Metrics) : ℝ :=
  let volatilities :=
    metricContribution 0.4 m.temperature ++ metricContribution 0.2 m.humidity ++
      metricContribution 0.2 m.pressure ++ metricContribution 0.2 m.windSpeed
  if 0 < volatilities.length then volatilities.foldl (fun s v => s + v) 0 else 0

/-! Spec-side statistics, written from the specification text: mean =
arithmetic mean, variance = mean of squared deviations (divide by N, not N-1),
std = square root of the variance. -/

/-- Arithmetic mean, as the specification describes it. -/
noncomputable def specMean (s : List ℝ) : ℝ := s.sum / s.length

/-- Population standard deviation, as the specification describes it. -/
noncomputable def populationStdDev (s : List ℝ) : ℝ :=
  Real.sqrt (((s.map fun x => (x - specMean s) ^ 2).sum) / s.length)

/-! ## View-layer pipelines feeding the scorer (unnamed page source) -/

/-- The numeric columns of a `weather_readings` row that the volatility
pipelines read; `null` database values are `none`. -/
structure Reading where
  temperature_c : Option ℝ
  humidity_percent : Option ℝ
  pressure_hpa : Option ℝ
  wind_speed_ms : Option ℝ

/-- `Dashboard.fetchWeatherData` (unnamed page source, lines 316-346): when
more than one row was fetched, each metric column is filtered to its non-null
samples (`ℝ` has no NaN, so the `!isNaN` part of the filter is vacuous in the
model); the scorer runs only when more than one temperature sample survives,
with each other metric passed only when it also has more than one sample;
otherwise the displayed volatility is `0`. -/
noncomputable def dashboardVolatility (typedData : List Reading) : ℝ :=
  if 1 < typedData.length then
    let temperatures := typedData.filterMap fun r => r.temperature_c
    let humidities := typedData.filterMap fun r => r.humidity_percent
    let pressures := typedData.filterMap fun r => r.pressure_hpa
    let windSpeeds := typedData.filterMap fun r => r.wind_speed_ms
    if 1 < temperatures.length then
      calculateWeatherVolatility
        ⟨some temperatures,
          if 1 < humidities.length then some humidities else none,
          if 1 < pressures.length then some pressures else none,
          if 1 < windSpeeds.length then some windSpeeds else none⟩
    else 0
  else 0

/-- The Analytics page volatility (unnamed page source, lines 83-90): when any
rows were fetched, every metric column is passed to the scorer with null
samples coerced to `0` (`r.temperature_c || 0`), not filtered out. -/
noncomputable def analyticsVolatility (weatherData : List Reading) : ℝ :=
  if 0 < weatherData.length then
    calculateWeatherVolatility
      ⟨some (weatherData.map fun r => r.temperature_c.getD 0),
        some (weatherData.map fun r => r.humidity_percent.getD 0),
        some (weatherData.map fun r => r.pressure_hpa.getD 0),
        some (weatherData.map fun r => r.wind_speed_ms.getD 0)⟩
  else 0

/-- The per-metric term of the weighted sum, as a real number. -/
noncomputable def mTerm (w : ℝ) : Option (List ℝ) → ℝ
  | some l => if 1 < l.length then calculateVolatility l * w else 0
  | none => 0

/-- Pointwise permutation relation on optional sample arrays. -/
def OptPerm (o o' : Option (List ℝ)) : Prop :=
  (o = none ∧ o' = none) ∨ ∃ l l', o = some l ∧ o' = some l' ∧ l.Perm l'

/-- The fetched rows used to refute claim C6 on the Analytics pipeline: the
middle reading has a null temperature. -/
def analyticsSample : List Reading :=
  [⟨some 10, none, none, none⟩, ⟨none, none, none, none⟩,
    ⟨some 10, none, none, none⟩]

/-! ## Calendar model for the JS `Date` object

A local-time instant is a proleptic-Gregorian civil date plus a millisecond
offset within the day.  `daysFromCivil` and `civilFromDays` convert between a
civil date and a day number (days since 1970-01-01); they are the standard
era-based algorithms for the Gregorian calendar, used here to give exact
semantics to the `Date` methods (`setDate`, `getDate`, `getFullYear`,
`setHours`) that the `DateRangePicker` source calls.  All divisions are
Euclidean; every divisor is positive, so they agree with floor division. -/

/-- Day number of the civil date `(y, m, d)`, with day 0 = 1970-01-01.
`d` may lie outside `[1, 28..31]`; the function is linear in `d`, which is
exactly the overflow semantics of the JS `Date.setDate` mutator. -/
def daysFromCivil (y m d : Int) : Int :=
  let yy := if m ≤ 2 then y - 1 else y
  let era := yy / 400
  let yoe := yy - era * 400
  let mp := if 2 < m then m - 3 else m + 9
  let doy := (153 * mp + 2) / 5 + d - 1
  let doe := yoe * 365 + yoe / 4 - yoe / 100 + doy
  era * 146097 + doe - 719468

/-- A civil (proleptic-Gregorian) calendar date; months are 1-based, so the
JS constructor `new Date(y, 0, 1)` denotes `⟨y, 1, 1⟩` here. -/
structure CivilDate where
  year : Int
  month : Int
  day : Int
deriving DecidableEq, Repr

/-- Era index (400-year cycle) of a day number. -/
def eraOf (z : Int) : Int := (z + 719468) / 146097

/-- Day within the era, in `[0, 146097)`. -/
def doeOf (z : Int) : Int := z + 719468 - eraOf z * 146097

/-- Century within the era, in `[0, 3]`; the last day of the era belongs to
century 3 (the century holding the 400-year leap day). -/
def centOf (z : Int) : Int :=
  if doeOf z / 36524 = 4 then 3 else doeOf z / 36524

/-- Day within the century, in `[0, 36524]`. -/
def dcentOf (z : Int) : Int := doeOf z - 36524 * centOf z

/-- Year within the century (of the March-anchored shifted year), in
`[0, 99]`. -/
def yocOf (z : Int) : Int := (4 * dcentOf z + 3) / 1461

/-- Day within the shifted year, in `[0, 365]` (day 0 = March 1). -/
def doyOf (z : Int) : Int := dcentOf z - (365 * yocOf z + yocOf z / 4)

/-- Shifted month index, in `[0, 11]` (0 = March, ..., 11 = February). -/
def mpOf (z : Int) : Int := (5 * doyOf z + 2) / 153

/-- Civil date of a day number: inverse of `daysFromCivil` on valid dates. -/
def civilFromDays (z : Int) : CivilDate :=
  let mp := mpOf z
  let m := if mp < 10 then mp + 3 else mp - 9
  ⟨(if m ≤ 2 then 100 * centOf z + yocOf z + eraOf z * 400 + 1
    else 100 * centOf z + yocOf z + eraOf z * 400),
    m,
    doyOf z - (153 * mp + 2) / 5 + 1⟩

/-! ## The JS `Date` object, as used by `DateRangePicker` -/

/-- A JS `Date` value in local time: a civil date plus milliseconds within the
day. -/
structure JSDate where
  year : Int
  month : Int
  day : Int
  msOfDay : Int
deriving DecidableEq, Repr

/-- The civil-date part of an instant. -/
def JSDate.civil (dt : JSDate) : CivilDate := ⟨dt.year, dt.month, dt.day⟩

/-- `Date.prototype.setHours(h, min, s, ms)` for in-range arguments (the
source only ever passes `0,0,0,0` and `23,59,59,999`). -/
def JSDate.setHours (dt : JSDate) (h mi s ms : Int) : JSDate :=
  { dt with msOfDay := h * 3600000 + mi * 60000 + s * 1000 + ms }

/-- `Date.prototype.getDate()`: the day of the month. -/
def JSDate.getDate (dt : JSDate) : Int := dt.day

/-- `Date.prototype.getFullYear()`: the year. -/
def JSDate.getFullYear (dt : JSDate) : Int := dt.year

/-- `Date.prototype.setDate(n)`: replaces the day of the month by `n`,
rolling over into adjacent months or years when `n` is out of range. -/
def JSDate.setDate (dt : JSDate) (n : Int) : JSDate :=
  let c := civilFromDays (daysFromCivil dt.year dt.month n)
  ⟨c.year, c.month, c.day, dt.msOfDay⟩

/-- The timestamp of an instant, in milliseconds from the local epoch; this is
the value JS compares when ordering `Date`s. -/
def JSDate.toMillis (dt : JSDate) : Int :=
  daysFromCivil dt.year dt.month dt.day * 86400000 + dt.msOfDay

/-- An instant whose fields a real JS `Date` can report: month in `[1, 12]`,
day in `[1, 31]`, millisecond offset in `[0, 86400000)`. -/
def JSDate.Valid (dt : JSDate) : Prop :=
  1 ≤ dt.month ∧ dt.month ≤ 12 ∧ 1 ≤ dt.day ∧ dt.day ≤ 31 ∧
    0 ≤ dt.msOfDay ∧ dt.msOfDay < 86400000

/-! ## `DateRangePicker` (`src/components/ui/Tooltip.tsx`, lines 114-252) -/

/-- `applyPreset` (lines 133-161): `today` is now at end-of-day, `start` is
now at start-of-day, and the switch either sets `start` by preset and returns
the pair, or (for `"custom"` or any unrecognised value) hits `default` and
returns without changing any state, modelled as `none`. -/
def applyPreset (preset : String) (now : JSDate) : Option (JSDate × JSDate) :=
  let today := now.setHours 23 59 59 999
  let start := now.setHours 0 0 0 0
  if preset = "last7days" then
    some (start.setDate (today.getDate - 7), today)
  else if preset = "last30days" then
    some (start.setDate (today.getDate - 30), today)
  else if preset = "last90days" then
    some (start.setDate (today.getDate - 90), today)
  else if preset = "ytd" then
    some (⟨today.getFullYear, 1, 1, 0⟩, today)
  else none

/-- Start-of-day (00:00:00.000) on a civil date. -/
def startOfDayOn (c : CivilDate) : JSDate := ⟨c.year, c.month, c.day, 0⟩

/-- The same instant normalised to end-of-day (23:59:59.999). -/
def endOfDayOf (dt : JSDate) : JSDate := { dt with msOfDay := 86399999 }

/-- The civil date `k` calendar days before `c` (spec-side definition of
calendar-day subtraction). -/
def minusCalendarDays (c : CivilDate) (k : Int) : CivilDate :=
  civilFromDays (daysFromCivil c.year c.month c.day - k)

/-- The `DateRangePicker` component state: the two `useState` date values and
the `rangePreset` string. -/
structure PickerState where
  startDate : JSDate
  endDate : JSDate
  rangePreset : String
deriving DecidableEq, Repr

/-- `handleStartDateChange` (lines 163-169): the input date at 00:00:00.000
becomes the start date, the end date is untouched, and the preset becomes
`"custom"`. -/
def handleStartDateChange (st : PickerState) (input : CivilDate) : PickerState :=
  let newStartDate := JSDate.setHours ⟨input.year, input.month, input.day, 0⟩ 0 0 0 0
  { startDate := newStartDate, endDate := st.endDate, rangePreset := "custom" }

/-- `handleEndDateChange` (lines 171-177): the input date at 23:59:59.999
becomes the end date, the start date is untouched, and the preset becomes
`"custom"`. -/
def handleEndDateChange (st : PickerState) (input : CivilDate) : PickerState :=
  let newEndDate := JSDate.setHours ⟨input.year, input.month, input.day, 0⟩ 23 59 59 999
  { startDate := st.startDate, endDate := newEndDate, rangePreset := "custom" }

/-- The user interactions that can change the picker state: clicking a preset
button, editing the start bound, editing the end bound. -/
inductive PickerEvent where
  | presetClick : String → PickerEvent
  | editStart : CivilDate → PickerEvent
  | editEnd : CivilDate → PickerEvent

/-- One step of the picker state machine at wall-clock instant `now`. -/
def pickerStep (now : JSDate) (st : PickerState) : PickerEvent → PickerState
  | .presetClick p =>
    match applyPreset p now with
    | some (s, e) => ⟨s, e, p⟩
    | none => st
  | .editStart d => handleStartDateChange st d
  | .editEnd d => handleEndDateChange st d

/-- The `useState` initialisers (lines 120-127): start = now shifted back 7
days (at now's time of day), end = now, preset = `defaultRange`. -/
def initialState (now : JSDate) (defaultRange : String) : PickerState :=
  ⟨now.setDate (now.getDate - 7), now, defaultRange⟩

/-- The state after the mount effect (lines 129-131) ran `applyPreset
defaultRange` on the initial state. -/
def firstRenderState (now : JSDate) (defaultRange : String) : PickerState :=
  pickerStep now (initialState now defaultRange) (.presetClick defaultRange)

/-! ## Helper lemmas on the scorer -/

theorem foldl_add_map (f : ℝ → ℝ) (l : List ℝ) (a : ℝ) :
    l.foldl (fun s v => s + f v) a = a + (l.map f).sum := by
  induction l generalizing a with
  | nil => simp
  | cons x t ih => simp [ih (a + f x)]; ring

theorem jsSum_eq_sum (l : List ℝ) : jsSum l = l.sum := by
  have h := foldl_add_map (fun v => v) l 0
  simpa [jsSum] using h

theorem metricContribution_sum (w : ℝ) (o : Option (List ℝ)) :
    (metricContribution w o).sum = mTerm w o := by
  cases o with
  | none => simp [metricContribution, mTerm]
  | some l =>
    simp only [metricContribution, mTerm]
    split_ifs <;> simp

theorem calculateWeatherVolatility_eq (m : Metrics) :
    calculateWeatherVolatility m =
      mTerm 0.4 m.temperature + mTerm 0.2 m.humidity +
        mTerm 0.2 m.pressure + mTerm 0.2 m.windSpeed := by
  have hsum :
      ∀ l : List ℝ,
        (if 0 < l.length then l.foldl (fun s v => s + v) 0 else 0) = l.sum := by
    intro l
    cases l with
    | nil => simp
    | cons x t =>
      rw [if_pos (by simp)]
      exact jsSum_eq_sum (x :: t)
  simp only [calculateWeatherVolatility]
  rw [hsum]
  simp only [List.sum_append, metricContribution_sum]

theorem calculateVolatility_eq_populationStdDev (l : List ℝ)
    (h : 2 ≤ l.length) : calculateVolatility l = populationStdDev l := by
  simp only [calculateVolatility, populationStdDev, specMean]
  rw [if_neg (by omega)]
  rw [foldl_add_map (fun v => (v - jsSum l / l.length) ^ 2) l 0]
  rw [jsSum_eq_sum]
  simp

theorem calculateVolatility_nonneg (l : List ℝ) : 0 ≤ calculateVolatility l := by
  simp only [calculateVolatility]
  split_ifs
  · exact le_refl 0
  · exact Real.sqrt_nonneg _

theorem mTerm_nonneg (w : ℝ) (hw : 0 ≤ w) (o : Option (List ℝ)) :
    0 ≤ mTerm w o := by
  cases o with
  | none => exact le_refl 0
  | some l =>
    simp only [mTerm]
    split_ifs
    · exact mul_nonneg (calculateVolatility_nonneg l) hw
    · exact le_refl 0

theorem calculateVolatility_perm {l l' : List ℝ} (h : l.Perm l') :
    calculateVolatility l = calculateVolatility l' := by
  have hlen : l.length = l'.length := h.length_eq
  by_cases h2 : l.length < 2
  · simp only [calculateVolatility]
    rw [if_pos h2, if_pos (hlen ▸ h2)]
  · simp only [calculateVolatility]
    rw [if_neg h2, if_neg (hlen ▸ h2)]
    rw [foldl_add_map, foldl_add_map, jsSum_eq_sum, jsSum_eq_sum,
      h.sum_eq, hlen]
    rw [((h.map fun v => (v - l'.sum / l'.length) ^ 2).sum_eq)]

/-! ## Properties of the calendar conversions -/

theorem doeOf_bounds (z : Int) : 0 ≤ doeOf z ∧ doeOf z < 146097 := by
  unfold doeOf eraOf; omega

theorem centOf_bounds (z : Int) :
    0 ≤ centOf z ∧ centOf z ≤ 3 ∧
      36524 * centOf z ≤ doeOf z ∧ doeOf z ≤ 36524 * centOf z + 36524 := by
  have h := doeOf_bounds z
  unfold centOf; split_ifs <;> omega

theorem dcentOf_bounds (z : Int) : 0 ≤ dcentOf z ∧ dcentOf z ≤ 36524 := by
  have h := centOf_bounds z
  unfold dcentOf; omega

theorem yocOf_bounds (z : Int) : 0 ≤ yocOf z ∧ yocOf z ≤ 99 := by
  have h := dcentOf_bounds z
  unfold yocOf; omega

theorem yocOf_sandwich (z : Int) :
    365 * yocOf z + yocOf z / 4 ≤ dcentOf z ∧
      dcentOf z ≤ 365 * yocOf z + yocOf z / 4 + 365 := by
  have h := dcentOf_bounds z
  unfold yocOf; omega

theorem doyOf_bounds (z : Int) : 0 ≤ doyOf z ∧ doyOf z ≤ 365 := by
  have h := yocOf_sandwich z
  unfold doyOf; omega

theorem mpOf_bounds (z : Int) : 0 ≤ mpOf z ∧ mpOf z ≤ 11 := by
  have h := doyOf_bounds z
  unfold mpOf; omega

set_option maxHeartbeats 1000000 in
/-- The civil decomposition of a day number maps back to that day number. -/
theorem daysFromCivil_civilFromDays (z : Int) :
    daysFromCivil (civilFromDays z).year (civilFromDays z).month
      (civilFromDays z).day = z := by
  have hdoe := doeOf_bounds z
  have hc := centOf_bounds z
  have hdc := dcentOf_bounds z
  have hyoc := yocOf_bounds z
  have hdoy := doyOf_bounds z
  have hmp := mpOf_bounds z
  have hdoyDef : doyOf z = dcentOf z - (365 * yocOf z + yocOf z / 4) := rfl
  have hdcDef : dcentOf z = doeOf z - 36524 * centOf z := rfl
  have hdoeDef : doeOf z = z + 719468 - eraOf z * 146097 := rfl
  have hEra : (100 * centOf z + yocOf z + eraOf z * 400) / 400 = eraOf z := by
    omega
  have hYoe : 100 * centOf z + yocOf z + eraOf z * 400 - eraOf z * 400 =
      100 * centOf z + yocOf z := by ring
  have h4 : (100 * centOf z + yocOf z + eraOf z * 400 -
      (100 * centOf z + yocOf z + eraOf z * 400) / 400 * 400) / 4 =
      25 * centOf z + yocOf z / 4 := by
    rw [hEra, hYoe]; omega
  have h100 : (100 * centOf z + yocOf z + eraOf z * 400 -
      (100 * centOf z + yocOf z + eraOf z * 400) / 400 * 400) / 100 =
      centOf z := by
    rw [hEra, hYoe]; omega
  simp only [daysFromCivil, civilFromDays]
  split_ifs <;> (try simp only [add_sub_cancel_right, sub_add_cancel_right]) <;>
    omega

/-- `daysFromCivil` is linear in the day argument: the JS `setDate` overflow
rule (day `d - k` of the current month is `k` days before day `d`). -/
theorem daysFromCivil_sub (y m d k : Int) :
    daysFromCivil y m (d - k) = daysFromCivil y m d - k := by
  unfold daysFromCivil
  split_ifs <;> ring

/-! ## Normal forms of `applyPreset` -/

theorem applyPreset_last7days (now : JSDate) :
    applyPreset "last7days" now =
      some (startOfDayOn (minusCalendarDays now.civil 7), endOfDayOf now) := by
  simp only [applyPreset, JSDate.setHours, JSDate.getDate, JSDate.setDate,
    startOfDayOn, minusCalendarDays, endOfDayOf, JSDate.civil, String.reduceEq, reduceIte]
  rw [daysFromCivil_sub]
  norm_num

theorem applyPreset_last30days (now : JSDate) :
    applyPreset "last30days" now =
      some (startOfDayOn (minusCalendarDays now.civil 30), endOfDayOf now) := by
  simp only [applyPreset, JSDate.setHours, JSDate.getDate, JSDate.setDate,
    startOfDayOn, minusCalendarDays, endOfDayOf, JSDate.civil, String.reduceEq, reduceIte]
  rw [daysFromCivil_sub]
  norm_num

theorem applyPreset_last90days (now : JSDate) :
    applyPreset "last90days" now =
      some (startOfDayOn (minusCalendarDays now.civil 90), endOfDayOf now) := by
  simp only [applyPreset, JSDate.setHours, JSDate.getDate, JSDate.setDate,
    startOfDayOn, minusCalendarDays, endOfDayOf, JSDate.civil, String.reduceEq, reduceIte]
  rw [daysFromCivil_sub]
  norm_num

theorem applyPreset_ytd (now : JSDate) :
    applyPreset "ytd" now =
      some (startOfDayOn ⟨now.getFullYear, 1, 1⟩, endOfDayOf now) := by
  simp only [applyPreset, JSDate.setHours, JSDate.getFullYear,
    startOfDayOn, endOfDayOf, String.reduceEq, reduceIte]
  norm_num

theorem applyPreset_custom (now : JSDate) : applyPreset "custom" now = none := by
  simp only [applyPreset, String.reduceEq, reduceIte]

/-- January 1 is the earliest day of its year: within one year, the day
number is monotone in (month, day). -/
theorem daysFromCivil_jan1_le (y m d : Int) (h1 : 1 ≤ m) (h2 : m ≤ 12)
    (h3 : 1 ≤ d) : daysFromCivil y 1 1 ≤ daysFromCivil y m d := by
  simp only [daysFromCivil]
  split_ifs <;> omega

/-- A metric that is absent or has fewer than two samples contributes zero. -/
theorem mTerm_insufficient (w : ℝ) (o : Option (List ℝ))
    (h : o = none ∨ ∃ l, o = some l ∧ l.length < 2) : mTerm w o = 0 := by
  rcases h with rfl | ⟨l, rfl, hl⟩
  · rfl
  · simp only [mTerm]
    rw [if_neg (by omega)]

theorem mTerm_optPerm (w : ℝ) {o o' : Option (List ℝ)} (h : OptPerm o o') :
    mTerm w o = mTerm w o' := by
  rcases h with ⟨rfl, rfl⟩ | ⟨l, l', rfl, rfl, hp⟩
  · rfl
  · simp only [mTerm, hp.length_eq, calculateVolatility_perm hp]

/-! ## Claim theorems -/

/-- Claim C1: for every sample array with at least two elements and every
single metric, `calculateWeatherVolatility` with only that metric populated
returns the metric weight (temperature 0.4, humidity 0.2, pressure 0.2,
wind speed 0.2) times the population standard deviation of the samples. -/
theorem C1_single_metric_weighted_stddev (s : List ℝ) (h : 2 ≤ s.length) :
    calculateWeatherVolatility ⟨some s, none, none, none⟩ =
        0.4 * populationStdDev s ∧
    calculateWeatherVolatility ⟨none, some s, none, none⟩ =
        0.2 * populationStdDev s ∧
    calculateWeatherVolatility ⟨none, none, some s, none⟩ =
        0.2 * populationStdDev s ∧
    calculateWeatherVolatility ⟨none, none, none, some s⟩ =
        0.2 * populationStdDev s := by
  have hs := calculateVolatility_eq_populationStdDev s h
  have hif : (1 : ℕ) < s.length := by omega
  refine ⟨?_, ?_, ?_, ?_⟩ <;>
    · rw [calculateWeatherVolatility_eq]
      simp only [mTerm, hif, if_true, if_pos, hs]
      ring

theorem C1_witness :
    calculateWeatherVolatility ⟨some [10, 20], none, none, none⟩ =
      0.4 * populationStdDev [10, 20] :=
  (C1_single_metric_weighted_stddev [10, 20] (by decide)).1

/-- Claim C3: the scorer never fails; a metric that is absent or has fewer
than two samples contributes exactly zero (dropping it leaves the score
unchanged), and the all-absent and all-empty inputs score exactly 0. -/
theorem C3_sparse_data_contributes_zero (m : Metrics) :
    calculateWeatherVolatility ⟨none, none, none, none⟩ = 0 ∧
    calculateWeatherVolatility ⟨some [], some [], some [], some []⟩ = 0 ∧
    ((m.temperature = none ∨ ∃ l, m.temperature = some l ∧ l.length < 2) →
      calculateWeatherVolatility m =
        calculateWeatherVolatility ⟨none, m.humidity, m.pressure, m.windSpeed⟩) ∧
    ((m.humidity = none ∨ ∃ l, m.humidity = some l ∧ l.length < 2) →
      calculateWeatherVolatility m =
        calculateWeatherVolatility ⟨m.temperature, none, m.pressure, m.windSpeed⟩) ∧
    ((m.pressure = none ∨ ∃ l, m.pressure = some l ∧ l.length < 2) →
      calculateWeatherVolatility m =
        calculateWeatherVolatility ⟨m.temperature, m.humidity, none, m.windSpeed⟩) ∧
    ((m.windSpeed = none ∨ ∃ l, m.windSpeed = some l ∧ l.length < 2) →
      calculateWeatherVolatility m =
        calculateWeatherVolatility ⟨m.temperature, m.humidity, m.pressure, none⟩) := by
  refine ⟨?_, ?_, ?_, ?_, ?_, ?_⟩
  · rw [calculateWeatherVolatility_eq]; simp [mTerm]
  · rw [calculateWeatherVolatility_eq]; simp [mTerm]
  all_goals
    intro h
    rw [calculateWeatherVolatility_eq, calculateWeatherVolatility_eq]
    rw [mTerm_insufficient _ _ h]
    simp [mTerm]

theorem C3_witness :
    calculateWeatherVolatility ⟨some [5], some [1, 2], none, none⟩ =
      calculateWeatherVolatility ⟨none, some [1, 2], none, none⟩ :=
  (C3_sparse_data_contributes_zero ⟨some [5], some [1, 2], none, none⟩).2.2.1
    (Or.inr ⟨[5], rfl, by decide⟩)

/-- Claim C7: the volatility score is non-negative for every input, and it is
not clamped to a 0-10 scale: some input scores above 10. -/
theorem C7_nonneg_and_unbounded :
    (∀ m : Metrics, 0 ≤ calculateWeatherVolatility m) ∧
    (∃ m : Metrics, 10 < calculateWeatherVolatility m) := by
  constructor
  · intro m
    rw [calculateWeatherVolatility_eq]
    have h1 := mTerm_nonneg 0.4 (by norm_num) m.temperature
    have h2 := mTerm_nonneg 0.2 (by norm_num) m.humidity
    have h3 := mTerm_nonneg 0.2 (by norm_num) m.pressure
    have h4 := mTerm_nonneg 0.2 (by norm_num) m.windSpeed
    linarith
  · refine ⟨⟨some [0, 1000], none, none, none⟩, ?_⟩
    rw [calculateWeatherVolatility_eq]
    have hcv : calculateVolatility [0, 1000] = 500 := by
      have h1 : calculateVolatility [0, 1000] = Real.sqrt 250000 := by
        simp only [calculateVolatility, jsSum, List.foldl, List.length_cons,
          List.length_nil]
        norm_num
      rw [h1, show (250000 : ℝ) = 500 ^ 2 by norm_num,
        Real.sqrt_sq (by norm_num : (0 : ℝ) ≤ 500)]
    simp only [mTerm, hcv]
    norm_num

/-- Claim C8: permuting the samples within any metric leaves the score
unchanged (the statistic is order-independent). -/
theorem C8_order_independent (ta tb ha hb pa pb wa wb : Option (List ℝ))
    (ht : OptPerm ta tb) (hh : OptPerm ha hb) (hp : OptPerm pa pb)
    (hw : OptPerm wa wb) :
    calculateWeatherVolatility ⟨ta, ha, pa, wa⟩ =
      calculateWeatherVolatility ⟨tb, hb, pb, wb⟩ := by
  rw [calculateWeatherVolatility_eq, calculateWeatherVolatility_eq]
  simp only [mTerm_optPerm 0.4 ht, mTerm_optPerm 0.2 hh, mTerm_optPerm 0.2 hp,
    mTerm_optPerm 0.2 hw]

theorem C8_witness :
    calculateWeatherVolatility ⟨some [10, 20], none, none, none⟩ =
      calculateWeatherVolatility ⟨some [20, 10], none, none, none⟩ :=
  C8_order_independent _ _ _ _ _ _ _ _
    (Or.inr ⟨[10, 20], [20, 10], rfl, rfl, List.Perm.swap 20 10 []⟩)
    (Or.inl ⟨rfl, rfl⟩) (Or.inl ⟨rfl, rfl⟩) (Or.inl ⟨rfl, rfl⟩)

/-- Claim C2: for every instant, every preset resolves to end = the instant
normalised to end-of-day 23:59:59.999, and start = start-of-day 00:00:00.000
of the instant minus 7 / 30 / 90 calendar days, or January 1 of the
instant's year for `ytd`, regardless of its month and day. -/
theorem C2_preset_resolution (now : JSDate) :
    applyPreset "last7days" now =
        some (startOfDayOn (minusCalendarDays now.civil 7), endOfDayOf now) ∧
    applyPreset "last30days" now =
        some (startOfDayOn (minusCalendarDays now.civil 30), endOfDayOf now) ∧
    applyPreset "last90days" now =
        some (startOfDayOn (minusCalendarDays now.civil 90), endOfDayOf now) ∧
    applyPreset "ytd" now =
        some (startOfDayOn ⟨now.getFullYear, 1, 1⟩, endOfDayOf now) :=
  ⟨applyPreset_last7days now, applyPreset_last30days now,
    applyPreset_last90days now, applyPreset_ytd now⟩

/-- Claim C5: for every valid instant and every preset that resolves (the
four named presets), the resulting range has start ≤ end. -/
theorem C5_preset_range_ordered (now : JSDate) (hv : now.Valid) (p : String)
    (r : JSDate × JSDate) (h : applyPreset p now = some r) :
    r.1.toMillis ≤ r.2.toMillis := by
  obtain ⟨hm1, hm2, hd1, hd2, hms1, hms2⟩ := hv
  unfold applyPreset at h
  split_ifs at h
  case _ =>
    rw [Option.some_inj] at h
    subst h
    simp only [JSDate.setHours, JSDate.getDate, JSDate.setDate, JSDate.toMillis]
    rw [daysFromCivil_sub, daysFromCivil_civilFromDays]
    omega
  case _ =>
    rw [Option.some_inj] at h
    subst h
    simp only [JSDate.setHours, JSDate.getDate, JSDate.setDate, JSDate.toMillis]
    rw [daysFromCivil_sub, daysFromCivil_civilFromDays]
    omega
  case _ =>
    rw [Option.some_inj] at h
    subst h
    simp only [JSDate.setHours, JSDate.getDate, JSDate.setDate, JSDate.toMillis]
    rw [daysFromCivil_sub, daysFromCivil_civilFromDays]
    omega
  case _ =>
    rw [Option.some_inj] at h
    subst h
    simp only [JSDate.setHours, JSDate.getFullYear, JSDate.toMillis]
    have hj := daysFromCivil_jan1_le now.year now.month now.day hm1 hm2 hd1
    omega

theorem C5_witness :
    (JSDate.mk 2024 3 3 0).toMillis ≤ (JSDate.mk 2024 3 10 86399999).toMillis :=
  C5_preset_range_ordered ⟨2024, 3, 10, 43200000⟩
    ⟨by norm_num, by norm_num, by norm_num, by norm_num, by norm_num, by norm_num⟩
    "last7days" (⟨2024, 3, 3, 0⟩, ⟨2024, 3, 10, 86399999⟩) (by decide)

/-- Claim C4: editing the bounds normalises the start input to start-of-day
and the end input to end-of-day, switches the preset to custom, and enforces
no ordering: when the start input is after the end input the resulting range
is inverted (start > end), not swapped and not rejected. -/
theorem C4_custom_range_no_ordering (st : PickerState) (ds de : CivilDate) :
    (handleEndDateChange (handleStartDateChange st ds) de).startDate =
        startOfDayOn ds ∧
    (handleEndDateChange (handleStartDateChange st ds) de).endDate =
        endOfDayOf (startOfDayOn de) ∧
    (handleEndDateChange (handleStartDateChange st ds) de).rangePreset =
        "custom" ∧
    (daysFromCivil de.year de.month de.day <
        daysFromCivil ds.year ds.month ds.day →
      (handleEndDateChange (handleStartDateChange st ds) de).endDate.toMillis <
        (handleEndDateChange (handleStartDateChange st ds) de).startDate.toMillis) := by
  refine ⟨?_, ?_, rfl, ?_⟩
  · simp [handleStartDateChange, handleEndDateChange, JSDate.setHours,
      startOfDayOn]
  · simp [handleStartDateChange, handleEndDateChange, JSDate.setHours,
      startOfDayOn, endOfDayOf]
  · intro h
    simp only [handleStartDateChange, handleEndDateChange, JSDate.setHours,
      JSDate.toMillis]
    omega

theorem C4_witness :
    (handleEndDateChange
        (handleStartDateChange ⟨⟨1970, 1, 1, 0⟩, ⟨1970, 1, 1, 0⟩, "last7days"⟩
          ⟨2024, 3, 10⟩) ⟨2024, 3, 1⟩).endDate.toMillis <
      (handleEndDateChange
        (handleStartDateChange ⟨⟨1970, 1, 1, 0⟩, ⟨1970, 1, 1, 0⟩, "last7days"⟩
          ⟨2024, 3, 10⟩) ⟨2024, 3, 1⟩).startDate.toMillis :=
  (C4_custom_range_no_ordering ⟨⟨1970, 1, 1, 0⟩, ⟨1970, 1, 1, 0⟩, "last7days"⟩
    ⟨2024, 3, 10⟩ ⟨2024, 3, 1⟩).2.2.2 (by decide)

/-- Claim C9: the selection-mode state machine: the first render applies the
last7days preset; a preset activation that resolves moves to that preset
state; editing either bound moves to custom; only an explicit preset click
can produce a non-custom state; and clicking "custom" changes nothing, since
it is not a recognised preset. -/
theorem C9_selection_state_machine (now : JSDate) :
    firstRenderState now "last7days" =
        ⟨startOfDayOn (minusCalendarDays now.civil 7), endOfDayOf now,
          "last7days"⟩ ∧
    (∀ st p r, applyPreset p now = some r →
        pickerStep now st (.presetClick p) = ⟨r.1, r.2, p⟩) ∧
    (∀ st d, (pickerStep now st (.editStart d)).rangePreset = "custom") ∧
    (∀ st d, (pickerStep now st (.editEnd d)).rangePreset = "custom") ∧
    (∀ st e, (pickerStep now st e).rangePreset ≠ "custom" →
        ∃ p, e = .presetClick p) ∧
    (∀ st, pickerStep now st (.presetClick "custom") = st) := by
  refine ⟨?_, ?_, fun st d => rfl, fun st d => rfl, ?_, ?_⟩
  · unfold firstRenderState
    simp [pickerStep, applyPreset_last7days]
  · intro st p r h
    obtain ⟨s, e⟩ := r
    simp [pickerStep, h]
  · intro st e h
    cases e with
    | presetClick p => exact ⟨p, rfl⟩
    | editStart d => exact absurd rfl h
    | editEnd d => exact absurd rfl h
  · intro st
    simp [pickerStep, applyPreset_custom]

theorem C9_witness :
    pickerStep ⟨2024, 3, 10, 0⟩
        ⟨⟨2024, 3, 3, 0⟩, ⟨2024, 3, 10, 86399999⟩, "custom"⟩
        (.presetClick "custom") =
      ⟨⟨2024, 3, 3, 0⟩, ⟨2024, 3, 10, 86399999⟩, "custom"⟩ ∧
    pickerStep ⟨2024, 3, 10, 0⟩
        ⟨⟨2024, 3, 3, 0⟩, ⟨2024, 3, 10, 86399999⟩, "custom"⟩
        (.presetClick "ytd") =
      ⟨⟨2024, 1, 1, 0⟩, ⟨2024, 3, 10, 86399999⟩, "ytd"⟩ :=
  ⟨(C9_selection_state_machine ⟨2024, 3, 10, 0⟩).2.2.2.2.2
      ⟨⟨2024, 3, 3, 0⟩, ⟨2024, 3, 10, 86399999⟩, "custom"⟩,
    (C9_selection_state_machine ⟨2024, 3, 10, 0⟩).2.1
      ⟨⟨2024, 3, 3, 0⟩, ⟨2024, 3, 10, 86399999⟩, "custom"⟩ "ytd"
      (⟨2024, 1, 1, 0⟩, ⟨2024, 3, 10, 86399999⟩) (by decide)⟩

/-- Claim C10: the Dashboard pipeline displays volatility 0 whenever fewer
than two non-null temperature samples were fetched, even if every other
metric has two or more valid samples; the scorer is gated on the temperature
series. -/
theorem C10_dashboard_gated_on_temperature (rs : List Reading)
    (h : (rs.filterMap fun r => r.temperature_c).length < 2) :
    dashboardVolatility rs = 0 ∧
    dashboardVolatility
        [⟨none, some 0, none, none⟩, ⟨none, some 10, none, none⟩] = 0 ∧
    0 < calculateWeatherVolatility ⟨none, some [0, 10], none, none⟩ := by
  refine ⟨?_, ?_, ?_⟩
  · simp only [dashboardVolatility]
    split_ifs <;> first | rfl | omega
  · simp only [dashboardVolatility]
    norm_num [List.filterMap]
  · rw [calculateWeatherVolatility_eq]
    have hcv : calculateVolatility [0, 10] = Real.sqrt 25 := by
      simp only [calculateVolatility, jsSum, List.foldl, List.length_cons,
        List.length_nil]
      norm_num
    simp only [mTerm, hcv]
    norm_num

theorem C10_witness :
    dashboardVolatility
        [⟨none, some 0, none, none⟩, ⟨none, some 10, none, none⟩] = 0 :=
  (C10_dashboard_gated_on_temperature
    [⟨none, some 0, none, none⟩, ⟨none, some 10, none, none⟩] (by decide)).1

/-- Claim C6 is false on the Analytics pipeline: the null temperature sample
is fed to the statistics as the sentinel value 0 (the array passed to the
scorer is `[10, 0, 10]`, not the null-filtered `[10, 10]`), and the resulting
score is positive although the null-filtered inputs score exactly 0. -/
theorem C6_counterexample :
    analyticsSample.map (fun r => r.temperature_c.getD 0) = [10, 0, 10] ∧
    analyticsSample.filterMap (fun r => r.temperature_c) = [10, 10] ∧
    calculateWeatherVolatility
        ⟨some (analyticsSample.filterMap fun r => r.temperature_c),
          some (analyticsSample.filterMap fun r => r.humidity_percent),
          some (analyticsSample.filterMap fun r => r.pressure_hpa),
          some (analyticsSample.filterMap fun r => r.wind_speed_ms)⟩ = 0 ∧
    0 < analyticsVolatility analyticsSample := by
  refine ⟨rfl, rfl, ?_, ?_⟩
  · show calculateWeatherVolatility ⟨some [10, 10], some [], some [], some []⟩ = 0
    rw [calculateWeatherVolatility_eq]
    have hcv : calculateVolatility [10, 10] = Real.sqrt 0 := by
      simp only [calculateVolatility, jsSum, List.foldl, List.length_cons,
        List.length_nil]
      norm_num
    simp only [mTerm, hcv]
    norm_num
  · show 0 < analyticsVolatility analyticsSample
    have hmap : analyticsVolatility analyticsSample =
        calculateWeatherVolatility
          ⟨some [10, 0, 10], some [0, 0, 0], some [0, 0, 0], some [0, 0, 0]⟩ := by
      rfl
    rw [hmap, calculateWeatherVolatility_eq]
    have hz : calculateVolatility [0, 0, 0] = Real.sqrt 0 := by
      simp only [calculateVolatility, jsSum, List.foldl, List.length_cons,
        List.length_nil]
      norm_num
    have hcv : calculateVolatility [10, 0, 10] = Real.sqrt (200 / 9) := by
      simp only [calculateVolatility, jsSum, List.foldl, List.length_cons,
        List.length_nil]
      norm_num
    simp only [mTerm, hz, hcv]
    norm_num

/-- Claim C6 amended: in the Dashboard fetch pipeline null samples are indeed
filtered out before the statistics: appending a reading whose metric values
are all null never changes the computed volatility.  (In the Analytics
pipeline, by contrast, null samples are coerced to the sentinel 0 and do
participate; see the counterexample.) -/
theorem C6_dashboard_filters_nulls (rs : List Reading) :
    dashboardVolatility (rs ++ [⟨none, none, none, none⟩]) =
      dashboardVolatility rs := by
  rcases rs with _ | ⟨a, _ | ⟨b, t⟩⟩
  · simp [dashboardVolatility]
  · obtain ⟨t1, h1, p1, w1⟩ := a
    cases t1 <;> simp [dashboardVolatility, List.filterMap]
  · simp only [dashboardVolatility, List.cons_append, List.nil_append,
      List.filterMap_append, List.filterMap_cons, List.filterMap_nil,
      List.append_nil, List.length_cons, List.length_append]
    norm_num

end Weather
